import Mathlib

/-!
Shallow embedding of the framing core of the `rust-websocket` fork:
the frame-header codec (`src/ws/util/header.rs`), the frame parser
(`src/dataframe.rs`), the message assembler (`src/message.rs`), the
receiver loop (`src/client/receiver.rs` / `src/server/receiver.rs`)
and the handshake accept transform (`src/http/headers.rs`).

Byte streams are modelled as `List Nat` of byte values; reading past the
end of the stream is a clean EOF.  `byteorder`-style reads use
`read_exact`, whose EOF error is mapped by `From<io::Error> for
WebSocketError` (src/result.rs) to `NoDataAvailable`.
-/

set_option linter.unusedVariables false
set_option maxRecDepth 4096

/-- The error enum of `src/result.rs` (`WebSocketError`), restricted to the
variants reachable from the framing core over a pure byte stream. -/
inductive WebSocketError
  /-- A WebSocket protocol error -/
  | ProtocolError (msg : String)
  /-- Invalid WebSocket data frame error -/
  | DataFrameError (msg : String)
  /-- No data available (an `UnexpectedEof` I/O error, per the
  `From<io::Error>` impl in src/result.rs) -/
  | NoDataAvailable
  /-- An I/O error other than `UnexpectedEof` -/
  | IoError
  /-- A UTF-8 error -/
  | Utf8Error
  deriving Repr, DecidableEq

/-- `byteorder::ReadBytesExt::read_u8`: take one byte off the stream; EOF
becomes `NoDataAvailable` via `From<io::Error>`. -/
def readU8 : List Nat → Except WebSocketError (Nat × List Nat)
  | [] => .error .NoDataAvailable
  | b :: r => .ok (b, r)

/-- `byteorder` big-endian `read_u16` (via `read_exact`: two bytes or an
EOF error). -/
def readU16be : List Nat → Except WebSocketError (Nat × List Nat)
  | a :: b :: r => .ok (a * 256 + b, r)
  | _ => .error .NoDataAvailable

/-- `byteorder` big-endian `read_u64` (via `read_exact`: eight bytes or an
EOF error). -/
def readU64be : List Nat → Except WebSocketError (Nat × List Nat)
  | a :: b :: c :: d :: e :: f :: g :: h :: r =>
    .ok (((((((a * 256 + b) * 256 + c) * 256 + d) * 256 + e) * 256 + f) * 256 + g) * 256 + h, r)
  | _ => .error .NoDataAvailable

/-- `byteorder` big-endian `write_u16` of a `u16` value. -/
def writeU16be (n : Nat) : List Nat := [n / 256 % 256, n % 256]

/-- `byteorder` big-endian `write_u64` of a `u64` value. -/
def writeU64be (n : Nat) : List Nat :=
  [n / 2 ^ 56 % 256, n / 2 ^ 48 % 256, n / 2 ^ 40 % 256, n / 2 ^ 32 % 256,
   n / 2 ^ 24 % 256, n / 2 ^ 16 % 256, n / 2 ^ 8 % 256, n % 256]

/-- The `bitflags` set `DataFrameFlags` of src/ws/util/header.rs: a `u8`
whose admissible bits are `FIN = 0x80`, `RSV1 = 0x40`, `RSV2 = 0x20`,
`RSV3 = 0x10`; represented by its four admissible bits. -/
structure DataFrameFlags where
  fin : Bool
  rsv1 : Bool
  rsv2 : Bool
  rsv3 : Bool
  deriving Repr, DecidableEq

/-- `DataFrameFlags::bits`: the underlying `u8`. -/
def DataFrameFlags.bits (f : DataFrameFlags) : Nat :=
  (if f.fin then 0x80 else 0) + (if f.rsv1 then 0x40 else 0) +
    (if f.rsv2 then 0x20 else 0) + (if f.rsv3 then 0x10 else 0)

/-- `DataFrameFlags::from_bits_truncate`: keep only the defined bits. -/
def DataFrameFlags.fromBitsTruncate (b : Nat) : DataFrameFlags :=
  ⟨b &&& 0x80 = 0x80, b &&& 0x40 = 0x40, b &&& 0x20 = 0x20, b &&& 0x10 = 0x10⟩

/-- `DataFrameHeader` of src/ws/util/header.rs.  `opcode` is a `u8`,
`len` a `u64`, `mask` an optional `[u8; 4]`. -/
structure DataFrameHeader where
  flags : DataFrameFlags
  opcode : Nat
  mask : Option (Nat × Nat × Nat × Nat)
  len : Nat
  deriving Repr, DecidableEq

deriving instance DecidableEq for Except

/-- The Rust type invariant of an optional `[u8; 4]` masking key. -/
def maskWF : Option (Nat × Nat × Nat × Nat) → Prop
  | some (k0, k1, k2, k3) => k0 < 256 ∧ k1 < 256 ∧ k2 < 256 ∧ k3 < 256
  | none => True

instance : ∀ o, Decidable (maskWF o)
  | some (_, _, _, _) => by unfold maskWF; exact inferInstance
  | none => by unfold maskWF; exact inferInstance

/-- The Rust type invariants of `DataFrameHeader`: `opcode: u8`,
`len: u64`, mask bytes are `u8`. -/
def DataFrameHeader.WF (h : DataFrameHeader) : Prop :=
  h.opcode < 256 ∧ h.len < 2 ^ 64 ∧ maskWF h.mask

instance (h : DataFrameHeader) : Decidable h.WF := by
  unfold DataFrameHeader.WF
  exact inferInstance

/-- `write_header` of src/ws/util/header.rs, producing the written bytes. -/
def write_header (header : DataFrameHeader) : Except WebSocketError (List Nat) :=
  if header.opcode > 0xF then
    .error (.DataFrameError "Invalid data frame opcode")
  else if header.opcode ≥ 8 ∧ header.len ≥ 126 then
    .error (.DataFrameError "Control frame length too long")
  else
    -- 'FIN', 'RSV1', 'RSV2', 'RSV3' and 'opcode'
    let byte0 := header.flags.bits ||| header.opcode
    -- the 'MASK' bit and the 'Payload len'
    let byte1 := (if header.mask.isSome then 0x80 else 0x00) |||
      (if header.len ≤ 125 then header.len
       else if header.len ≤ 65535 then 126
       else 127)
    -- 'Extended payload length'
    let ext :=
      if 126 ≤ header.len ∧ header.len ≤ 65535 then writeU16be header.len
      else if header.len > 65535 then writeU64be header.len
      else []
    -- 'Masking-key'
    let maskBytes := match header.mask with
      | some (k0, k1, k2, k3) => [k0, k1, k2, k3]
      | none => []
    .ok (byte0 :: byte1 :: (ext ++ maskBytes))

/-- `read_header` of src/ws/util/header.rs, returning the header and the
unread remainder of the stream. -/
def read_header (input : List Nat) : Except WebSocketError (DataFrameHeader × List Nat) :=
  match input with
  | byte0 :: byte1 :: r =>
    let flags := DataFrameFlags.fromBitsTruncate byte0
    let opcode := byte0 &&& 0x0F
    let lenRead : Except WebSocketError (Nat × List Nat) :=
      if byte1 &&& 0x7F ≤ 125 then .ok (byte1 &&& 0x7F, r)
      else if byte1 &&& 0x7F = 126 then
        match readU16be r with
        | .error e => .error e
        | .ok (len, r) =>
          if len ≤ 125 then .error (.DataFrameError "Invalid data frame length")
          else .ok (len, r)
      else
        match readU64be r with
        | .error e => .error e
        | .ok (len, r) =>
          if len ≤ 65535 then .error (.DataFrameError "Invalid data frame length")
          else .ok (len, r)
    match lenRead with
    | .error e => .error e
    | .ok (len, r) =>
      if opcode ≥ 8 ∧ len ≥ 126 then
        .error (.DataFrameError "Control frame length too long")
      else if opcode ≥ 8 ∧ !flags.fin then
        .error (.ProtocolError "Illegal fragmented control frame")
      else
        match (if byte1 &&& 0x80 = 0x80 then
                 match r with
                 | k0 :: k1 :: k2 :: k3 :: r =>
                   (.ok (some (k0, k1, k2, k3), r) :
                     Except WebSocketError (Option (Nat × Nat × Nat × Nat) × List Nat))
                 | _ => .error .NoDataAvailable
               else .ok (none, r)) with
      | .error e => .error e
      | .ok (mask, r) => .ok (⟨flags, opcode, mask, len⟩, r)
  | _ => .error .NoDataAvailable

/-- The `Opcode` enum of src/dataframe.rs (sixteen fieldless variants with
discriminants 0 through 15). -/
inductive Opcode
  | Continuation
  | Text
  | Binary
  | NonControl1
  | NonControl2
  | NonControl3
  | NonControl4
  | NonControl5
  | Close
  | Ping
  | Pong
  | Control1
  | Control2
  | Control3
  | Control4
  | Control5
  deriving Repr, DecidableEq

/-- `Opcode::new` of src/dataframe.rs: form an `Opcode` from a nibble, or
`None` when the value is out of range. -/
def Opcode.new : Nat → Option Opcode
  | 0 => some .Continuation
  | 1 => some .Text
  | 2 => some .Binary
  | 3 => some .NonControl1
  | 4 => some .NonControl2
  | 5 => some .NonControl3
  | 6 => some .NonControl4
  | 7 => some .NonControl5
  | 8 => some .Close
  | 9 => some .Ping
  | 10 => some .Pong
  | 11 => some .Control1
  | 12 => some .Control2
  | 13 => some .Control3
  | 14 => some .Control4
  | 15 => some .Control5
  | _ => none

/-- The `as u8` cast of `Opcode` (its discriminant). -/
def Opcode.toU8 : Opcode → Nat
  | .Continuation => 0
  | .Text => 1
  | .Binary => 2
  | .NonControl1 => 3
  | .NonControl2 => 4
  | .NonControl3 => 5
  | .NonControl4 => 6
  | .NonControl5 => 7
  | .Close => 8
  | .Ping => 9
  | .Pong => 10
  | .Control1 => 11
  | .Control2 => 12
  | .Control3 => 13
  | .Control4 => 14
  | .Control5 => 15

/-- One byte of a `[u8; 4]` masking key, selected by `i mod 4`. -/
def maskByte (key : Nat × Nat × Nat × Nat) : Nat → Nat
  | 0 => key.1
  | 1 => key.2.1
  | 2 => key.2.2.1
  | _ => key.2.2.2

/-- Modelled from the spec: `ws::util::mask::mask_data` (declared as
`pub mod mask` in src/ws/util/mod.rs but absent from src/), specified in
§4.1 as the transform `out[i] = in[i] XOR key[i mod 4]`; `start` is the
index of the first byte of `data` within the payload. -/
def maskFrom (key : Nat × Nat × Nat × Nat) (start : Nat) : List Nat → List Nat
  | [] => []
  | b :: rest => (b ^^^ maskByte key (start % 4)) :: maskFrom key (start + 1) rest

/-- Modelled from the spec: the §4.1 masking transform over a whole payload. -/
def mask_data (key : Nat × Nat × Nat × Nat) (data : List Nat) : List Nat :=
  maskFrom key 0 data

/-- `DataFrame` of src/dataframe.rs. -/
structure DataFrame where
  finished : Bool
  reserved : Bool × Bool × Bool
  opcode : Opcode
  data : List Nat
  deriving Repr, DecidableEq

/-- Result type of the frame parser: either a `WebSocketError` (the Rust
`WebSocketResult` error arm) or a reached `panic` (the
`.expect("Invalid header opcode!")` in `DataFrameT::parse`). -/
inductive ParseFailure
  | err (e : WebSocketError)
  | panicked (msg : String)
  deriving Repr, DecidableEq

/-- `reader.take(n).bytes().collect()`: collect at most `n` bytes, stopping
early at a clean EOF (the `bytes()` iterator ends at EOF without an error). -/
def takeBytes (n : Nat) (input : List Nat) : List Nat × List Nat :=
  (input.take n, input.drop n)

/-- `DataFrameT::parse` of src/dataframe.rs: read one header, then the
payload, unmasking it when a masking key is present; `masked` is the
caller's masked-expectation.  Returns the frame and the unread remainder. -/
def DataFrame.parse (input : List Nat) (masked : Bool) :
    Except ParseFailure (DataFrame × List Nat) :=
  match read_header input with
  | .error e => .error (.err e)
  | .ok (header, r) =>
    match Opcode.new header.opcode with
    | none => .error (.panicked "Invalid header opcode!")
    | some opcode =>
      let dataRead : Except ParseFailure (List Nat × List Nat) :=
        match header.mask with
        | some key =>
          if !masked then
            .error (.err (.DataFrameError "Expected unmasked data frame"))
          else
            let (raw, r) := takeBytes header.len r
            .ok (mask_data key raw, r)
        | none =>
          if masked then
            .error (.err (.DataFrameError "Expected masked data frame"))
          else
            .ok (takeBytes header.len r)
      match dataRead with
      | .error e => .error e
      | .ok (data, r) =>
        .ok (⟨header.flags.fin, (header.flags.rsv1, header.flags.rsv2, header.flags.rsv3),
              opcode, data⟩, r)

/-- UTF-8 encoding of one Unicode scalar value (model of Rust std
`String::into_bytes`, RFC 3629). -/
def utf8EncodeChar (n : Nat) : List Nat :=
  if n < 0x80 then [n]
  else if n < 0x800 then [0xC0 + n / 64, 0x80 + n % 64]
  else if n < 0x10000 then [0xE0 + n / 4096, 0x80 + n / 64 % 64, 0x80 + n % 64]
  else [0xF0 + n / 0x40000, 0x80 + n / 4096 % 64, 0x80 + n / 64 % 64, 0x80 + n % 64]

/-- UTF-8 encoding of a character sequence (model of `str::as_bytes`). -/
def utf8Encode : List Char → List Nat
  | [] => []
  | c :: cs => utf8EncodeChar c.toNat ++ utf8Encode cs

/-- Decode one UTF-8 scalar from the head of a byte list (model of Rust std
`str::from_utf8` validation): returns the scalar value and the remainder,
or `none` on malformed input.  Rejects non-minimal encodings and
surrogates. -/
def utf8DecodeOne : List Nat → Option (Nat × List Nat)
  | [] => none
  | b0 :: r =>
    if b0 < 0x80 then some (b0, r)
    else if b0 < 0xC0 then none
    else if b0 < 0xE0 then
      match r with
      | b1 :: r1 =>
        if 0x80 ≤ b1 ∧ b1 < 0xC0 then
          let n := (b0 - 0xC0) * 64 + (b1 - 0x80)
          if 0x80 ≤ n then some (n, r1) else none
        else none
      | [] => none
    else if b0 < 0xF0 then
      match r with
      | b1 :: b2 :: r2 =>
        if (0x80 ≤ b1 ∧ b1 < 0xC0) ∧ (0x80 ≤ b2 ∧ b2 < 0xC0) then
          let n := (b0 - 0xE0) * 4096 + (b1 - 0x80) * 64 + (b2 - 0x80)
          if 0x800 ≤ n ∧ (n < 0xD800 ∨ 0xDFFF < n) then some (n, r2) else none
        else none
      | _ => none
    else if b0 < 0xF8 then
      match r with
      | b1 :: b2 :: b3 :: r3 =>
        if (0x80 ≤ b1 ∧ b1 < 0xC0) ∧ (0x80 ≤ b2 ∧ b2 < 0xC0) ∧ (0x80 ≤ b3 ∧ b3 < 0xC0) then
          let n := (b0 - 0xF0) * 0x40000 + (b1 - 0x80) * 4096 + (b2 - 0x80) * 64 + (b3 - 0x80)
          if 0x10000 ≤ n ∧ n < 0x110000 then some (n, r3) else none
        else none
      | _ => none
    else none

/-- Fuel-indexed UTF-8 decoding loop; one unit of fuel per decoded
character suffices since each character consumes at least one byte. -/
def utf8DecodeLoop : Nat → List Nat → Option (List Char)
  | _, [] => some []
  | 0, _ :: _ => none
  | fuel + 1, b :: r =>
    match utf8DecodeOne (b :: r) with
    | none => none
    | some (n, rest) =>
      if hv : n.isValidChar then
        (utf8DecodeLoop fuel rest).map (fun cs => Char.ofNat n :: cs)
      else none

/-- Full UTF-8 validation/decoding of a byte list (model of Rust std
`str::from_utf8`). -/
def utf8Decode (l : List Nat) : Option (List Char) :=
  utf8DecodeLoop l.length l

/-- `bytes_to_string` of src/ws/util/mod.rs: UTF-8-validate a byte slice
into an owned `String`; the `Utf8Error` is converted by `try!` into
`WebSocketError::Utf8Error`. -/
def bytes_to_string (data : List Nat) : Except WebSocketError String :=
  match utf8Decode data with
  | some cs => .ok (String.mk cs)
  | none => .error .Utf8Error

/-- `CloseData` of src/message.rs. -/
structure CloseData where
  status_code : Nat
  reason : String
  deriving Repr, DecidableEq

/-- `CloseData::into_bytes` of src/message.rs: big-endian `u16` status
code followed by the UTF-8 bytes of the reason. -/
def CloseData.into_bytes (cd : CloseData) : List Nat :=
  writeU16be cd.status_code ++ utf8Encode cd.reason.data

/-- `Message` of src/message.rs. -/
inductive Message
  | Text (s : String)
  | Binary (d : List Nat)
  | Close (d : Option CloseData)
  | Ping (d : List Nat)
  | Pong (d : List Nat)
  deriving Repr, DecidableEq

/-- Modelled from the spec: `ws::util::message::message_from_data` (called
by `Message::from_dataframes` in src/message.rs but absent from src/).
Per §4.3 and §6: `Text` payloads are UTF-8-validated (via the
`bytes_to_string` of src/ws/util/mod.rs); a `Close` payload, when present,
is two big-endian bytes of status code followed by a UTF-8 reason, and an
empty `Close` payload means no close data; data opcodes other than
`Text`/`Binary` and control opcodes other than `Close`/`Ping`/`Pong` are a
protocol error.  A one-byte close payload makes the status-code read hit
EOF (`NoDataAvailable`); the spec does not pin this case down. -/
def message_from_data (opcode : Opcode) (data : List Nat) : Except WebSocketError Message :=
  match opcode with
  | .Text =>
    match bytes_to_string data with
    | .error e => .error e
    | .ok s => .ok (.Text s)
  | .Binary => .ok (.Binary data)
  | .Close =>
    match data with
    | [] => .ok (.Close none)
    | [_] => .error .NoDataAvailable
    | c0 :: c1 :: rest =>
      match bytes_to_string rest with
      | .error e => .error e
      | .ok s => .ok (.Close (some ⟨c0 * 256 + c1, s⟩))
  | .Ping => .ok (.Ping data)
  | .Pong => .ok (.Pong data)
  | _ => .error (.ProtocolError "Unsupported opcode received")

/-- The continuation-frame loop of `Message::from_dataframes`
(src/message.rs): append each continuation frame's payload, rejecting
non-continuation opcodes and set reserved bits. -/
def continuationFold : List DataFrame → List Nat → Except WebSocketError (List Nat)
  | [], acc => .ok acc
  | f :: rest, acc =>
    if f.opcode ≠ .Continuation then
      .error (.ProtocolError "Unexpected non-continuation data frame")
    else if f.reserved ≠ (false, false, false) then
      .error (.ProtocolError "Unsupported reserved bits received")
    else continuationFold rest (acc ++ f.data)

/-- `Message::from_dataframes` of src/message.rs. -/
def Message.from_dataframes (frames : List DataFrame) : Except WebSocketError Message :=
  match frames with
  | [] => .error (.ProtocolError "No dataframes provided")
  | first :: rest =>
    if first.reserved ≠ (false, false, false) then
      .error (.ProtocolError "Unsupported reserved bits received")
    else
      match continuationFold rest first.data with
      | .error e => .error e
      | .ok data => message_from_data first.opcode data

/-- The opcode selected for a message by `Message::into_iter`
(src/message.rs). -/
def Message.wireOpcode : Message → Opcode
  | .Text _ => .Text
  | .Binary _ => .Binary
  | .Close _ => .Close
  | .Ping _ => .Ping
  | .Pong _ => .Pong

/-- The payload selected for a message by `Message::into_iter`
(src/message.rs): `Text` via `String::into_bytes`, `Close` via
`CloseData::into_bytes` (empty when there is no close data). -/
def Message.wireData : Message → List Nat
  | .Text s => utf8Encode s.data
  | .Binary d => d
  | .Close (some cd) => cd.into_bytes
  | .Close none => []
  | .Ping d => d
  | .Pong d => d

/-- `Message::into_iter` of src/message.rs: a single data frame built by
`DataFrame::new(true, opcode, data)` (so `reserved = [false; 3]`),
returned once (`repeat(dataframe).take(1)`). -/
def Message.into_iter (m : Message) : List DataFrame :=
  [⟨true, (false, false, false), m.wireOpcode, m.wireData⟩]

/-- The Rust type invariant of `Message`: a close status code is a `u16`. -/
def Message.WF : Message → Prop
  | .Close (some cd) => cd.status_code < 2 ^ 16
  | _ => True

instance : ∀ m : Message, Decidable m.WF
  | .Text _ => by unfold Message.WF; exact inferInstance
  | .Binary _ => by unfold Message.WF; exact inferInstance
  | .Close none => by unfold Message.WF; exact inferInstance
  | .Close (some _) => by unfold Message.WF; exact inferInstance
  | .Ping _ => by unfold Message.WF; exact inferInstance
  | .Pong _ => by unfold Message.WF; exact inferInstance

/-- The `Receiver` state of src/client/receiver.rs and
src/server/receiver.rs: the buffered reader (remaining stream bytes) and
the fragment reassembly buffer. -/
structure Receiver where
  inner : List Nat
  buffer : List DataFrame
  deriving Repr, DecidableEq

/-- `Receiver::recv_dataframe`: read one data frame off the stream
(`masked = false` for the client receiver of src/client/receiver.rs,
`masked = true` for the server receiver of src/server/receiver.rs). -/
def Receiver.recv_dataframe (rcv : Receiver) (masked : Bool) :
    Except ParseFailure (DataFrame × Receiver) :=
  match DataFrame.parse rcv.inner masked with
  | .error e => .error e
  | .ok (f, r) => .ok (f, ⟨r, rcv.buffer⟩)

/-- The `while !finished` loop of `Receiver::recv_message_dataframes`
(src/client/receiver.rs lines 112-128 and the identical loop of
src/server/receiver.rs): read frames, pushing continuation frames onto the
buffer, returning a control frame alone with the buffer kept intact, and
returning the buffer (then clearing it) once a final continuation frame
arrives.  `fuel` bounds the iteration count; one unit per remaining input
byte is more than enough because every parsed frame consumes at least its
two header bytes, so the fuel-exhaustion arm is unreachable (and returns
the same error as reading an empty stream would). -/
def recvLoop (masked : Bool) : Nat → List Nat → List DataFrame →
    Except ParseFailure (List DataFrame × Receiver)
  | 0, _, _ => .error (.err .NoDataAvailable)
  | fuel + 1, input, buffer =>
    match DataFrame.parse input masked with
    | .error e => .error e
    | .ok (next, r) =>
      if next.opcode.toU8 = 0 then
        if next.finished then .ok (buffer ++ [next], ⟨r, []⟩)
        else recvLoop masked fuel r (buffer ++ [next])
      else if 8 ≤ next.opcode.toU8 ∧ next.opcode.toU8 ≤ 15 then
        .ok ([next], ⟨r, buffer⟩)
      else .error (.err (.ProtocolError "Unexpected data frame opcode"))

/-- `Receiver::recv_message_dataframes` of src/client/receiver.rs
(`masked = false`) and src/server/receiver.rs (`masked = true`): returns
the data frames that constitute one message together with the receiver
state left behind. -/
def Receiver.recv_message_dataframes (rcv : Receiver) (masked : Bool) :
    Except ParseFailure (List DataFrame × Receiver) :=
  if rcv.buffer.isEmpty then
    match DataFrame.parse rcv.inner masked with
    | .error e => .error e
    | .ok (first, r) =>
      if first.opcode = .Continuation then
        .error (.err (.ProtocolError "Unexpected continuation data frame opcode"))
      else if first.finished then
        .ok ([first], ⟨r, []⟩)
      else
        recvLoop masked r.length r [first]
  else
    recvLoop masked rcv.inner.length rcv.inner rcv.buffer

-- §8 scenario 3 (fragmented binary): `01 03 01 02 03` then `80 02 04 05`
-- would be Text; the binary variant uses opcode 2.

/-- 32-bit left rotation (SHA-1 `ROTL`). -/
def rotl32 (x k : Nat) : Nat := ((x <<< k) ||| (x >>> (32 - k))) % 2 ^ 32

/-- Big-endian grouping of bytes into 32-bit words (FIPS 180-4 §6.1). -/
def bytesToWords32 : List Nat → List Nat
  | a :: b :: c :: d :: rest => (((a * 256 + b) * 256 + c) * 256 + d) :: bytesToWords32 rest
  | _ => []

/-- Big-endian bytes of one 32-bit word. -/
def word32Bytes (w : Nat) : List Nat :=
  [w / 2 ^ 24 % 256, w / 2 ^ 16 % 256, w / 2 ^ 8 % 256, w % 256]

/-- SHA-1 message padding: `0x80`, zeros to 56 mod 64, then the bit length
as a big-endian 64-bit integer (FIPS 180-4 §5.1.1).  Models the `openssl`
`hash(SHA1, _)` call of src/http/headers.rs. -/
def sha1Pad (msg : List Nat) : List Nat :=
  msg ++ [0x80] ++ List.replicate ((119 - msg.length % 64) % 64) 0 ++ writeU64be (8 * msg.length)

/-- Fuel-indexed split into 64-byte blocks; fuel one per byte suffices. -/
def chunk64 : Nat → List Nat → List (List Nat)
  | _, [] => []
  | 0, _ :: _ => []
  | fuel + 1, l => l.take 64 :: chunk64 fuel (l.drop 64)

/-- SHA-1 message-schedule extension, keeping the most recent word first:
`w[t] = ROTL1(w[t-3] XOR w[t-8] XOR w[t-14] XOR w[t-16])`. -/
def sha1ExtendLoop : Nat → List Nat → List Nat
  | 0, w => w
  | k + 1, w =>
      sha1ExtendLoop k
        (rotl32 ((w.getD 2 0) ^^^ (w.getD 7 0) ^^^ (w.getD 13 0) ^^^ (w.getD 15 0)) 1 :: w)

/-- The SHA-1 round function `f_t` (FIPS 180-4 §4.1.1). -/
def sha1F (t b c d : Nat) : Nat :=
  if t < 20 then (b &&& c) ||| ((b ^^^ 0xFFFFFFFF) &&& d)
  else if t < 40 then b ^^^ c ^^^ d
  else if t < 60 then (b &&& c) ||| (b &&& d) ||| (c &&& d)
  else b ^^^ c ^^^ d

/-- The SHA-1 round constants `K_t`. -/
def sha1K (t : Nat) : Nat :=
  if t < 20 then 0x5A827999
  else if t < 40 then 0x6ED9EBA1
  else if t < 60 then 0x8F1BBCDC
  else 0xCA62C1D6

/-- The 80 SHA-1 rounds over the extended schedule. -/
def sha1Rounds : Nat → List Nat → Nat × Nat × Nat × Nat × Nat → Nat × Nat × Nat × Nat × Nat
  | _, [], st => st
  | t, wt :: ws, (a, b, c, d, e) =>
      let tmp := (rotl32 a 5 + sha1F t b c d + e + sha1K t + wt) % 2 ^ 32
      sha1Rounds (t + 1) ws (tmp, a, rotl32 b 30, c, d)

/-- One SHA-1 block compression. -/
def sha1Compress (h : Nat × Nat × Nat × Nat × Nat) (block : List Nat) :
    Nat × Nat × Nat × Nat × Nat :=
  let w := (sha1ExtendLoop 64 (bytesToWords32 block).reverse).reverse
  let (a, b, c, d, e) := sha1Rounds 0 w h
  let (h0, h1, h2, h3, h4) := h
  ((h0 + a) % 2 ^ 32, (h1 + b) % 2 ^ 32, (h2 + c) % 2 ^ 32, (h3 + d) % 2 ^ 32,
    (h4 + e) % 2 ^ 32)

/-- SHA-1 of a byte sequence (FIPS 180-4), the model of the `openssl`
`hash(hash::Type::SHA1, _)` call in src/http/headers.rs. -/
def sha1 (msg : List Nat) : List Nat :=
  let padded := sha1Pad msg
  let (h0, h1, h2, h3, h4) :=
    (chunk64 padded.length padded).foldl sha1Compress
      (0x67452301, 0xEFCDAB89, 0x98BADCFE, 0x10325476, 0xC3D2E1F0)
  word32Bytes h0 ++ word32Bytes h1 ++ word32Bytes h2 ++ word32Bytes h3 ++ word32Bytes h4

/-- The RFC 4648 standard base64 alphabet. -/
def base64Alphabet : List Char :=
  "ABCDEFGHIJKLMNOPQRSTUVWXYZabcdefghijklmnopqrstuvwxyz0123456789+/".data

/-- One base64 digit. -/
def base64Digit (n : Nat) : Char := base64Alphabet.getD n 'A'

/-- RFC 4648 standard base64 encoding with `=` padding, the model of
rustc-serialize `to_base64(STANDARD)` in src/http/headers.rs. -/
def base64Encode : List Nat → List Char
  | a :: b :: c :: rest =>
      let n := (a * 256 + b) * 256 + c
      base64Digit (n / 262144) :: base64Digit (n / 4096 % 64) ::
        base64Digit (n / 64 % 64) :: base64Digit (n % 64) :: base64Encode rest
  | [a, b] =>
      let n := (a * 256 + b) * 256
      [base64Digit (n / 262144), base64Digit (n / 4096 % 64), base64Digit (n / 64 % 64), '=']
  | [a] =>
      let n := a * 65536
      [base64Digit (n / 262144), base64Digit (n / 4096 % 64), '=', '=']
  | [] => []

/-- `MAGIC_GUID` of src/http/headers.rs. -/
def MAGIC_GUID : String := "258EAFA5-E914-47DA-95CA-C5AB0DC85B11"

/-- The `Into<WebSocketAccept> for WebSocketKey` impl of
src/http/headers.rs: append the magic GUID to the key, SHA1 the UTF-8
bytes, base64 the digest. -/
def websocket_accept (key : String) : String :=
  String.mk (base64Encode (sha1 (utf8Encode (key ++ MAGIC_GUID).data)))

/-- The possible outcomes of one `read_header` call, for the §4.2
"rejects exactly when" classification. -/
inductive HeaderOutcome
  | success
  | eof
  | nonMinimalLen
  | controlTooLong
  | fragmentedControl
  | other
  deriving Repr, DecidableEq

/-- Classify a `read_header` result by its error variant and message. -/
def classifyHeaderResult : Except WebSocketError (DataFrameHeader × List Nat) → HeaderOutcome
  | .ok _ => .success
  | .error .NoDataAvailable => .eof
  | .error (.DataFrameError "Invalid data frame length") => .nonMinimalLen
  | .error (.DataFrameError "Control frame length too long") => .controlTooLong
  | .error (.ProtocolError "Illegal fragmented control frame") => .fragmentedControl
  | .error _ => .other

/-- Written from the spec's §4.2 case list: the outcome once the announced
length is known — a control opcode with `len ≥ 126` is rejected, a control
opcode with `FIN = 0` is rejected, and otherwise the read succeeds
provided the four masking-key bytes are present when `MASK` is set. -/
def finishOutcome (opcode : Nat) (fin : Bool) (len : Nat) (masked : Bool)
    (r : List Nat) : HeaderOutcome :=
  if 8 ≤ opcode ∧ 126 ≤ len then .controlTooLong
  else if 8 ≤ opcode ∧ fin = false then .fragmentedControl
  else if masked ∧ r.length < 4 then .eof
  else .success

/-- Written from the spec's §4.2 case list: how a header read of `input`
must end — EOF while the fixed bytes, the extended length, or the masking
key are missing; `nonMinimalLen` when a 16-bit extended length is ≤ 125 or
a 64-bit extended length is ≤ 65535; and otherwise per `finishOutcome`. -/
def headerOutcomeSpec : List Nat → HeaderOutcome
  | b0 :: b1 :: rest =>
    let opcode := b0 &&& 0x0F
    let fin := b0 &&& 0x80 = 0x80
    let masked := b1 &&& 0x80 = 0x80
    if b1 &&& 0x7F ≤ 125 then
      finishOutcome opcode fin (b1 &&& 0x7F) masked rest
    else if b1 &&& 0x7F = 126 then
      match rest with
      | x :: y :: r =>
        if x * 256 + y ≤ 125 then .nonMinimalLen
        else finishOutcome opcode fin (x * 256 + y) masked r
      | _ => .eof
    else
      match rest with
      | x0 :: x1 :: x2 :: x3 :: x4 :: x5 :: x6 :: x7 :: r =>
        let v := ((((((x0 * 256 + x1) * 256 + x2) * 256 + x3) * 256 + x4) * 256 + x5) * 256
          + x6) * 256 + x7
        if v ≤ 65535 then .nonMinimalLen
        else finishOutcome opcode fin v masked r
      | _ => .eof
  | _ => .eof

/-- The receiver-buffer invariant maintained by
`recv_message_dataframes`: the buffer is empty, or holds a
non-continuation first fragment followed only by continuation frames. -/
def bufferWF : List DataFrame → Prop
  | [] => True
  | f :: rest => f.opcode ≠ .Continuation ∧ ∀ g ∈ rest, g.opcode = .Continuation

/-- Shape of a frame vector returned by `recv_message_dataframes`:
non-empty, and a single frame or a non-continuation first frame followed
only by continuation frames. -/
def msgFramesWF : List DataFrame → Prop
  | [] => False
  | f :: rest =>
    rest = [] ∨ (f.opcode ≠ .Continuation ∧ ∀ g ∈ rest, g.opcode = .Continuation)

theorem natXorCancel (b k : Nat) : b ^^^ k ^^^ k = b := by
  rw [Nat.xor_assoc, Nat.xor_self, Nat.xor_zero]

theorem maskFrom_involutive (key : Nat × Nat × Nat × Nat) (s : Nat) (data : List Nat) :
    maskFrom key s (maskFrom key s data) = data := by
  induction data generalizing s with
  | nil => rfl
  | cons b rest ih => simp only [maskFrom, natXorCancel, ih]

/-- C8: the masking transform `out[i] = in[i] XOR key[i mod 4]` is its
own inverse: for every payload and every 4-byte key,
`mask(mask(P, K), K) = P`. -/
theorem c8_mask_data_involution (key : Nat × Nat × Nat × Nat) (data : List Nat) :
    mask_data key (mask_data key data) = data :=
  maskFrom_involutive key 0 data

/-- C2: for every handshake key the accept transform equals
`base64(SHA1(key ++ "258EAFA5-E914-47DA-95CA-C5AB0DC85B11"))`, and on the
RFC 6455 sample key `dGhlIHNhbXBsZSBub25jZQ==` it yields
`s3pPLMBiTxaQ9kYGzzhZRbK+xOo=`. -/
theorem c2_websocket_accept :
    (∀ key : String,
      websocket_accept key =
        String.mk (base64Encode (sha1 (utf8Encode (key ++ MAGIC_GUID).data)))) ∧
    websocket_accept "dGhlIHNhbXBsZSBub25jZQ==" = "s3pPLMBiTxaQ9kYGzzhZRbK+xOo=" :=
  ⟨fun _ => rfl, by decide⟩

theorem opcode_toU8_le (op : Opcode) : op.toU8 ≤ 15 := by
  cases op <;> decide

theorem opcode_new_of_le {n : Nat} (h : n ≤ 15) :
    ∃ op, Opcode.new n = some op ∧ op.toU8 = n := by
  interval_cases n <;> exact ⟨_, rfl, rfl⟩

theorem opcode_new_of_gt (k : Nat) : Opcode.new (k + 16) = none := rfl

theorem flags_lor_recover (f : DataFrameFlags) (a : Nat) (ha : a ≤ 15) :
    DataFrameFlags.fromBitsTruncate (f.bits ||| a) = f ∧ (f.bits ||| a) &&& 0x0F = a := by
  obtain ⟨f1, f2, f3, f4⟩ := f
  cases f1 <;> cases f2 <;> cases f3 <;> cases f4 <;> interval_cases a <;> decide

theorem maskbit_lor_recover (m lm : Nat) (hm : m = 0x80 ∨ m = 0) (hlm : lm ≤ 127) :
    (m ||| lm) &&& 0x7F = lm ∧ ((m ||| lm) &&& 0x80 = 0x80 ↔ m = 0x80) := by
  rcases hm with rfl | rfl <;> interval_cases lm <;> decide

theorem readU16be_writeU16be (n : Nat) (h : n < 2 ^ 16) (rest : List Nat) :
    readU16be (writeU16be n ++ rest) = .ok (n, rest) := by
  have e : n / 256 % 256 * 256 + n % 256 = n := by omega
  simp only [writeU16be, List.cons_append, List.nil_append, readU16be, e]

theorem readU64be_writeU64be (n : Nat) (h : n < 2 ^ 64) (rest : List Nat) :
    readU64be (writeU64be n ++ rest) = .ok (n, rest) := by
  have e : ((((((n / 2 ^ 56 % 256 * 256 + n / 2 ^ 48 % 256) * 256 + n / 2 ^ 40 % 256) * 256 +
      n / 2 ^ 32 % 256) * 256 + n / 2 ^ 24 % 256) * 256 + n / 2 ^ 16 % 256) * 256 +
      n / 2 ^ 8 % 256) * 256 + n % 256 = n := by omega
  simp only [writeU64be, List.cons_append, List.nil_append, readU64be, e]

/-- C1 (amended): for every well-formed `DataFrameHeader` that
`write_header` accepts and that does not claim a fragmented control frame
(`opcode ≥ 8` forces `FIN`), reading the written bytes back returns the
header and consumes exactly the written bytes. -/
theorem c1_header_roundtrip (h : DataFrameHeader) (bs rest : List Nat)
    (hWF : h.WF) (hw : write_header h = .ok bs)
    (hfin : 8 ≤ h.opcode → h.flags.fin = true) :
    read_header (bs ++ rest) = .ok (h, rest) := by
  obtain ⟨hop8, hlen64, hmaskWF⟩ := hWF
  simp only [write_header] at hw
  by_cases h15 : h.opcode > 0xF
  · rw [if_pos h15] at hw; cases hw
  rw [if_neg h15] at hw
  by_cases hctl : h.opcode ≥ 8 ∧ h.len ≥ 126
  · rw [if_pos hctl] at hw; cases hw
  rw [if_neg hctl] at hw
  injection hw with hbs
  subst hbs
  obtain ⟨hb0trunc, hb0and⟩ := flags_lor_recover h.flags h.opcode (by omega)
  have hnofrag : ¬(h.opcode ≥ 8 ∧ (!h.flags.fin) = true) := by
    rintro ⟨hge, hnf⟩
    rw [hfin hge] at hnf
    exact absurd hnf (by decide)
  obtain ⟨hb1low, hb1high⟩ :=
    maskbit_lor_recover (if h.mask.isSome then 0x80 else 0x00)
      (if h.len ≤ 125 then h.len else if h.len ≤ 65535 then 126 else 127)
      (by cases h.mask.isSome <;> simp)
      (by split
          · omega
          · split <;> omega)
  rcases hmq : h.mask with _ | ⟨k0, k1, k2, k3⟩ <;>
    rw [hmq] at hb1low hb1high <;>
      simp only [Option.isSome_none, Option.isSome_some, if_true, if_false,
        Bool.false_eq_true, eq_self_iff_true, ite_true, ite_false] at hb1low hb1high ⊢
  -- mask = none
  · have hmaskbit : ¬((0 ||| if h.len ≤ 125 then h.len else
        if h.len ≤ 65535 then 126 else 127) &&& 0x80 = 0x80) := by
      intro hx
      exact absurd (hb1high.mp hx) (by decide)
    by_cases hA : h.len ≤ 125
    · rw [if_pos hA] at hb1low hmaskbit ⊢
      rw [if_neg (by omega : ¬(126 ≤ h.len ∧ h.len ≤ 65535)),
        if_neg (by omega : ¬h.len > 65535)]
      simp only [List.cons_append, List.nil_append, read_header]
      rw [hb1low, if_pos hA]
      dsimp only
      rw [hb0and, hb0trunc]
      rw [if_neg (by omega : ¬(h.opcode ≥ 8 ∧ h.len ≥ 126)), if_neg hnofrag,
        if_neg hmaskbit]
      dsimp only
      rw [← hmq]
    · by_cases hB : h.len ≤ 65535
      · rw [if_neg hA, if_pos hB] at hb1low hmaskbit ⊢
        rw [if_pos (by omega : 126 ≤ h.len ∧ h.len ≤ 65535)]
        simp only [List.cons_append, List.nil_append, List.append_assoc, read_header]
        rw [hb1low, if_neg (by omega : ¬(126 : Nat) ≤ 125), if_pos rfl]
        rw [readU16be_writeU16be h.len (by omega) rest]
        dsimp only
        rw [hb0and, hb0trunc]
        rw [if_neg (by omega : ¬h.len ≤ 125)]
        dsimp only
        rw [if_neg (by omega : ¬(h.opcode ≥ 8 ∧ h.len ≥ 126)), if_neg hnofrag,
          if_neg hmaskbit]
        dsimp only
        rw [← hmq]
      · rw [if_neg hA, if_neg hB] at hb1low hmaskbit ⊢
        rw [if_neg (by omega : ¬(126 ≤ h.len ∧ h.len ≤ 65535)),
          if_pos (by omega : h.len > 65535)]
        simp only [List.cons_append, List.nil_append, List.append_assoc, read_header]
        rw [hb1low, if_neg (by omega : ¬(127 : Nat) ≤ 125),
          if_neg (by omega : ¬(127 : Nat) = 126)]
        rw [readU64be_writeU64be h.len (by omega) rest]
        dsimp only
        rw [hb0and, hb0trunc]
        rw [if_neg (by omega : ¬h.len ≤ 65535)]
        dsimp only
        rw [if_neg (by omega : ¬(h.opcode ≥ 8 ∧ h.len ≥ 126)), if_neg hnofrag,
          if_neg hmaskbit]
        dsimp only
        rw [← hmq]
  -- mask = some (k0, k1, k2, k3)
  · have hmaskbit : ((0x80 ||| if h.len ≤ 125 then h.len else
        if h.len ≤ 65535 then 126 else 127) &&& 0x80 = 0x80) := hb1high.mpr trivial
    by_cases hA : h.len ≤ 125
    · rw [if_pos hA] at hb1low hmaskbit ⊢
      rw [if_neg (by omega : ¬(126 ≤ h.len ∧ h.len ≤ 65535)),
        if_neg (by omega : ¬h.len > 65535)]
      simp only [List.cons_append, List.nil_append, read_header]
      rw [hb1low, if_pos hA]
      dsimp only
      rw [hb0and, hb0trunc]
      rw [if_neg (by omega : ¬(h.opcode ≥ 8 ∧ h.len ≥ 126)), if_neg hnofrag,
        if_pos hmaskbit]
      dsimp only
      rw [← hmq]
    · by_cases hB : h.len ≤ 65535
      · rw [if_neg hA, if_pos hB] at hb1low hmaskbit ⊢
        rw [if_pos (by omega : 126 ≤ h.len ∧ h.len ≤ 65535)]
        simp only [List.cons_append, List.nil_append, List.append_assoc, read_header]
        rw [hb1low, if_neg (by omega : ¬(126 : Nat) ≤ 125), if_pos rfl]
        rw [readU16be_writeU16be h.len (by omega) (k0 :: k1 :: k2 :: k3 :: rest)]
        dsimp only
        rw [hb0and, hb0trunc]
        rw [if_neg (by omega : ¬h.len ≤ 125)]
        dsimp only
        rw [if_neg (by omega : ¬(h.opcode ≥ 8 ∧ h.len ≥ 126)), if_neg hnofrag,
          if_pos hmaskbit]
        dsimp only
        rw [← hmq]
      · rw [if_neg hA, if_neg hB] at hb1low hmaskbit ⊢
        rw [if_neg (by omega : ¬(126 ≤ h.len ∧ h.len ≤ 65535)),
          if_pos (by omega : h.len > 65535)]
        simp only [List.cons_append, List.nil_append, List.append_assoc, read_header]
        rw [hb1low, if_neg (by omega : ¬(127 : Nat) ≤ 125),
          if_neg (by omega : ¬(127 : Nat) = 126)]
        rw [readU64be_writeU64be h.len (by omega) (k0 :: k1 :: k2 :: k3 :: rest)]
        dsimp only
        rw [hb0and, hb0trunc]
        rw [if_neg (by omega : ¬h.len ≤ 65535)]
        dsimp only
        rw [if_neg (by omega : ¬(h.opcode ≥ 8 ∧ h.len ≥ 126)), if_neg hnofrag,
          if_pos hmaskbit]
        dsimp only
        rw [← hmq]

/-- C1 (counterexample to the unconditional claim): `write_header`
accepts a `Close` header with `FIN = 0` and `len = 0` (its only checks are
`opcode ≤ 15` and the control-length bound), but `read_header` rejects the
written bytes `08 00`, so the round trip fails without the FIN
precondition. -/
theorem c1_counterexample :
    write_header ⟨⟨false, false, false, false⟩, 8, none, 0⟩ = .ok [0x08, 0x00] ∧
    read_header ([0x08, 0x00] ++ []) =
      .error (.ProtocolError "Illegal fragmented control frame") := by
  decide

/-- Witness for `c1_header_roundtrip` at the repo's own unit-test header
(`FIN`, opcode 1, no mask, length 43). -/
theorem c1_header_roundtrip_witness :
    read_header ([0x81, 0x2B] ++ []) =
      .ok (⟨⟨true, false, false, false⟩, 1, none, 43⟩, []) :=
  c1_header_roundtrip ⟨⟨true, false, false, false⟩, 1, none, 43⟩ [0x81, 0x2B] []
    (by decide) (by decide) (fun h8 => absurd h8 (by decide))

theorem read_header_opcode_le (input : List Nat) (h : DataFrameHeader) (r : List Nat)
    (hok : read_header input = .ok (h, r)) : h.opcode ≤ 15 := by
  match input with
  | [] => exact absurd hok (by simp [read_header])
  | [b0] => exact absurd hok (by simp [read_header])
  | b0 :: b1 :: rest =>
    simp only [read_header] at hok
    split at hok
    · cases hok
    · split at hok
      · cases hok
      · split at hok
        · cases hok
        · split at hok
          · cases hok
          · simp only [Except.ok.injEq, Prod.mk.injEq] at hok
            obtain ⟨hh, hr⟩ := hok
            subst hh
            exact Nat.and_le_right

theorem parse_spec (input : List Nat) (masked : Bool) (h : DataFrameHeader) (r : List Nat)
    (hok : read_header input = .ok (h, r)) :
    ∃ op, Opcode.new h.opcode = some op ∧ op.toU8 = h.opcode ∧
      DataFrame.parse input masked =
        (match h.mask with
         | some key =>
           if !masked then .error (.err (.DataFrameError "Expected unmasked data frame"))
           else .ok (⟨h.flags.fin, (h.flags.rsv1, h.flags.rsv2, h.flags.rsv3), op,
                      mask_data key (r.take h.len)⟩, r.drop h.len)
         | none =>
           if masked then .error (.err (.DataFrameError "Expected masked data frame"))
           else .ok (⟨h.flags.fin, (h.flags.rsv1, h.flags.rsv2, h.flags.rsv3), op,
                      r.take h.len⟩, r.drop h.len)) := by
  obtain ⟨op, hop, hopU8⟩ := opcode_new_of_le (read_header_opcode_le input h r hok)
  refine ⟨op, hop, hopU8, ?_⟩
  simp only [DataFrame.parse, hok, hop]
  rcases h.mask with _ | key
  · cases masked <;> dsimp [takeBytes]
  · cases masked <;> dsimp [takeBytes]

theorem parse_no_panic (input : List Nat) (masked : Bool) (msg : String) :
    DataFrame.parse input masked ≠ .error (.panicked msg) := by
  intro hbad
  cases hr : read_header input with
  | error e =>
    simp only [DataFrame.parse, hr] at hbad
    cases hbad
  | ok v =>
    obtain ⟨h, r⟩ := v
    obtain ⟨op, hop, hopU8, hparse⟩ := parse_spec input masked h r hr
    rw [hparse] at hbad
    rcases hm : h.mask with _ | key <;> rw [hm] at hbad <;> cases masked <;> simp at hbad

/-- C10: `Opcode::new(op)` returns `Some` exactly when `op ≤ 15`;
every header returned by `read_header` carries `opcode = byte0 & 0x0F ≤ 15`;
hence the `.expect("Invalid header opcode!")` panic in `DataFrameT::parse`
is unreachable: `parse` never ends in the panic outcome. -/
theorem c10_opcode_panic_unreachable :
    (∀ op : Nat, (Opcode.new op).isSome ↔ op ≤ 15) ∧
    (∀ input h r, read_header input = .ok (h, r) → h.opcode ≤ 15) ∧
    (∀ input masked msg, DataFrame.parse input masked ≠ .error (.panicked msg)) := by
  refine ⟨fun op => ⟨fun hs => ?_, fun hle => ?_⟩, read_header_opcode_le, parse_no_panic⟩
  · by_contra hgt
    rw [show op = (op - 16) + 16 from by omega, opcode_new_of_gt] at hs
    cases hs
  · obtain ⟨o, ho, _⟩ := opcode_new_of_le hle
    rw [ho]
    rfl

/-- Witness for `c10_opcode_panic_unreachable`: each conjunct applied at a
concrete input (`op = 9`; the `81 2B` header; a one-byte stream). -/
theorem c10_witness :
    (Opcode.new 9).isSome ∧
    (⟨⟨true, false, false, false⟩, 1, none, 43⟩ : DataFrameHeader).opcode ≤ 15 ∧
    DataFrame.parse [0x81] false ≠ .error (.panicked "Invalid header opcode!") :=
  ⟨(c10_opcode_panic_unreachable.1 9).mpr (by decide),
   c10_opcode_panic_unreachable.2.1 [0x81, 0x2B] _ [] (by decide),
   c10_opcode_panic_unreachable.2.2 [0x81] false "Invalid header opcode!"⟩

/-- C5 (amended): when the stream ends (clean EOF) before the
announced payload length can be read, the frame parse of `recv_dataframe`
does not fail at all: `reader.take(len).bytes().collect()` stops at EOF,
so `parse` succeeds and returns a frame whose payload is only the bytes
that were available.  (A header truncated mid-way yields `NoDataAvailable`
— the `From<io::Error>` mapping of `UnexpectedEof` — never `IoError`.) -/
theorem c5_truncated_payload (input : List Nat) (h : DataFrameHeader) (r : List Nat)
    (hok : read_header input = .ok (h, r)) (hm : h.mask = none)
    (htrunc : r.length < h.len) :
    ∃ f, DataFrame.parse input false = .ok (f, []) ∧ f.data = r := by
  obtain ⟨op, hop, hopU8, hparse⟩ := parse_spec input false h r hok
  rw [hm] at hparse
  refine ⟨⟨h.flags.fin, (h.flags.rsv1, h.flags.rsv2, h.flags.rsv3), op, r⟩, ?_, rfl⟩
  rw [hparse]
  have h1 : List.take h.len r = r := List.take_of_length_le (Nat.le_of_lt htrunc)
  have h2 : List.drop h.len r = [] := List.drop_eq_nil_of_le (Nat.le_of_lt htrunc)
  simp [h1, h2]

/-- C5 (counterexample to the claim as stated): the bytes `82 05 01 02`
announce a 5-byte unmasked Binary payload but provide only two bytes; the
parse returns `Ok` with the short payload `[1, 2]` instead of an
`IoError`. -/
theorem c5_counterexample :
    DataFrame.parse [0x82, 0x05, 0x01, 0x02] false =
      .ok (⟨true, (false, false, false), .Binary, [1, 2]⟩, []) := by decide

/-- Witness for `c5_truncated_payload` at the `82 05 01 02` stream. -/
theorem c5_witness :
    ∃ f, DataFrame.parse [0x82, 0x05, 0x01, 0x02] false = .ok (f, []) ∧ f.data = [1, 2] :=
  c5_truncated_payload [0x82, 0x05, 0x01, 0x02] ⟨⟨true, false, false, false⟩, 2, none, 5⟩
    [1, 2] (by decide) rfl (by decide)

/-- C6: the masked-expectation of `DataFrameT::parse`: expecting a
masked frame but finding no masking key yields `DataFrameError "Expected
masked data frame"`; expecting an unmasked frame but finding a key yields
`DataFrameError "Expected unmasked data frame"`; and when the expectation
matches a present key the parsed frame's payload is the XOR-unmasked
data. -/
theorem c6_mask_expectation (input : List Nat) (h : DataFrameHeader) (r : List Nat)
    (k : Nat × Nat × Nat × Nat) (hok : read_header input = .ok (h, r)) :
    (h.mask = none →
      DataFrame.parse input true =
        .error (.err (.DataFrameError "Expected masked data frame"))) ∧
    (h.mask = some k →
      DataFrame.parse input false =
        .error (.err (.DataFrameError "Expected unmasked data frame"))) ∧
    (h.mask = some k →
      ∃ op, Opcode.new h.opcode = some op ∧
        DataFrame.parse input true =
          .ok (⟨h.flags.fin, (h.flags.rsv1, h.flags.rsv2, h.flags.rsv3), op,
                mask_data k (r.take h.len)⟩, r.drop h.len)) := by
  refine ⟨fun hm => ?_, fun hm => ?_, fun hm => ?_⟩
  · obtain ⟨op, hop, _, hparse⟩ := parse_spec input true h r hok
    rw [hm] at hparse
    simpa using hparse
  · obtain ⟨op, hop, _, hparse⟩ := parse_spec input false h r hok
    rw [hm] at hparse
    simpa using hparse
  · obtain ⟨op, hop, _, hparse⟩ := parse_spec input true h r hok
    rw [hm] at hparse
    exact ⟨op, hop, by simpa using hparse⟩

/-- Witness for `c6_mask_expectation`: an unmasked Text frame parsed with
`masked = true`, and a masked Text frame parsed with `masked = false`. -/
theorem c6_witness :
    DataFrame.parse [0x81, 0x05, 0x48, 0x65, 0x6C, 0x6C, 0x6F] true =
      .error (.err (.DataFrameError "Expected masked data frame")) ∧
    DataFrame.parse [0x81, 0x85, 1, 2, 3, 4, 0x49, 0x67, 0x6F, 0x68, 0x6E] false =
      .error (.err (.DataFrameError "Expected unmasked data frame")) :=
  ⟨(c6_mask_expectation [0x81, 0x05, 0x48, 0x65, 0x6C, 0x6C, 0x6F]
      ⟨⟨true, false, false, false⟩, 1, none, 5⟩ [0x48, 0x65, 0x6C, 0x6C, 0x6F]
      (0, 0, 0, 0) (by decide)).1 rfl,
   (c6_mask_expectation [0x81, 0x85, 1, 2, 3, 4, 0x49, 0x67, 0x6F, 0x68, 0x6E]
      ⟨⟨true, false, false, false⟩, 1, some (1, 2, 3, 4), 5⟩ [0x49, 0x67, 0x6F, 0x68, 0x6E]
      (1, 2, 3, 4) (by decide)).2.1 rfl⟩

theorem classify_tail (b0 b1 len : Nat) (r : List Nat) :
    classifyHeaderResult
      (if b0 &&& 0x0F ≥ 8 ∧ len ≥ 126 then
         .error (.DataFrameError "Control frame length too long")
       else if b0 &&& 0x0F ≥ 8 ∧ !(DataFrameFlags.fromBitsTruncate b0).fin then
         .error (.ProtocolError "Illegal fragmented control frame")
       else
         match (if b1 &&& 0x80 = 0x80 then
                  match r with
                  | k0 :: k1 :: k2 :: k3 :: r =>
                    (.ok (some (k0, k1, k2, k3), r) :
                      Except WebSocketError (Option (Nat × Nat × Nat × Nat) × List Nat))
                  | _ => .error .NoDataAvailable
                else .ok (none, r)) with
         | .error e => .error e
         | .ok (mask, r2) =>
           .ok (⟨DataFrameFlags.fromBitsTruncate b0, b0 &&& 0x0F, mask, len⟩, r2)) =
    finishOutcome (b0 &&& 0x0F) (b0 &&& 0x80 = 0x80) len (b1 &&& 0x80 = 0x80) r := by
  rcases r with _ | ⟨a, _ | ⟨b, _ | ⟨c, _ | ⟨d, rr⟩⟩⟩⟩ <;>
    by_cases hf : b0 &&& 0x80 = 0x80 <;> by_cases hm : b1 &&& 0x80 = 0x80 <;>
      by_cases hc : 8 ≤ b0 &&& 0x0F <;> by_cases hl : 126 ≤ len <;>
        simp_all [classifyHeaderResult, finishOutcome, DataFrameFlags.fromBitsTruncate] <;>
          (repeat (first
            | rw [if_pos (show (126 : Nat) ≤ len from by omega)]
            | rw [if_neg (show ¬(126 : Nat) ≤ len from by omega)]
            | rw [if_pos (show 8 ≤ b0 &&& 15 from by omega)]
            | rw [if_neg (show ¬8 ≤ b0 &&& 15 from by omega)]
            | rw [if_pos (show 8 ≤ b0 &&& 15 ∧ 126 ≤ len from by omega)]
            | rw [if_neg (show ¬(8 ≤ b0 &&& 15 ∧ 126 ≤ len) from by omega)])) <;>
          (try rfl)

/-- C3 (amended): `read_header`'s outcome is classified exactly by the
§4.2 case list, with one correction: a non-minimal 16-bit extended length
(≤ 125) and a non-minimal 64-bit extended length (≤ 65535) yield
`DataFrameError "Invalid data frame length"`, a control opcode with an
announced length ≥ 126 yields `DataFrameError "Control frame length too
long"`, but a control opcode with `FIN = 0` (and a length that fits a
control frame) yields `ProtocolError "Illegal fragmented control frame"`,
not a `DataFrameError`; an opcode ≥ 16 cannot occur since the opcode is
`byte0 & 0x0F`; every other complete input is read successfully (and a
stream ending inside the header is a clean-EOF `NoDataAvailable`). -/
theorem c3_read_header_error_classes (input : List Nat) :
    classifyHeaderResult (read_header input) = headerOutcomeSpec input := by
  match input with
  | [] => rfl
  | [b0] => rfl
  | b0 :: b1 :: rest =>
    simp only [read_header, headerOutcomeSpec]
    by_cases h125 : b1 &&& 0x7F ≤ 125
    · rw [if_pos h125, if_pos h125]
      exact classify_tail b0 b1 (b1 &&& 0x7F) rest
    · rw [if_neg h125, if_neg h125]
      by_cases h126 : b1 &&& 0x7F = 126
      · rw [if_pos h126, if_pos h126]
        match rest with
        | [] => rfl
        | [x] => rfl
        | x :: y :: r =>
          dsimp only [readU16be]
          by_cases hnm : x * 256 + y ≤ 125
          · rw [if_pos hnm, if_pos hnm]
            rfl
          · rw [if_neg hnm, if_neg hnm]
            exact classify_tail b0 b1 (x * 256 + y) r
      · rw [if_neg h126, if_neg h126]
        match rest with
        | [] => rfl
        | [x0] => rfl
        | [x0, x1] => rfl
        | [x0, x1, x2] => rfl
        | [x0, x1, x2, x3] => rfl
        | [x0, x1, x2, x3, x4] => rfl
        | [x0, x1, x2, x3, x4, x5] => rfl
        | [x0, x1, x2, x3, x4, x5, x6] => rfl
        | x0 :: x1 :: x2 :: x3 :: x4 :: x5 :: x6 :: x7 :: r =>
          dsimp only [readU64be]
          by_cases hnm : ((((((x0 * 256 + x1) * 256 + x2) * 256 + x3) * 256 + x4) * 256 +
              x5) * 256 + x6) * 256 + x7 ≤ 65535
          · rw [if_pos hnm, if_pos hnm]
            rfl
          · rw [if_neg hnm, if_neg hnm]
            exact classify_tail b0 b1
              (((((((x0 * 256 + x1) * 256 + x2) * 256 + x3) * 256 + x4) * 256 +
                x5) * 256 + x6) * 256 + x7) r

/-- C3 (counterexample to the claim as stated): the bytes `09 7D`
announce a Ping frame (control opcode 9) with `FIN = 0` and length 125;
`read_header` rejects them with a `ProtocolError`, not the
`DataFrameError` the claim requires for every listed case. -/
theorem c3_counterexample :
    read_header [0x09, 0x7D] =
      .error (.ProtocolError "Illegal fragmented control frame") := by decide

theorem utf8EncodeChar_ne_nil (n : Nat) : utf8EncodeChar n ≠ [] := by
  unfold utf8EncodeChar
  split
  · simp
  · split
    · simp
    · split <;> simp

theorem utf8DecodeOne_encodeChar (n : Nat) (hv : n.isValidChar) (rest : List Nat) :
    utf8DecodeOne (utf8EncodeChar n ++ rest) = some (n, rest) := by
  have hlt : n < 0x110000 := by rcases hv with h | ⟨_, h⟩ <;> omega
  have hsur : n < 0xD800 ∨ 0xDFFF < n := by rcases hv with h | ⟨h, _⟩ <;> omega
  unfold utf8EncodeChar
  by_cases h1 : n < 0x80
  · rw [if_pos h1]
    simp only [List.cons_append, List.nil_append, utf8DecodeOne]
    rw [if_pos h1]
  · rw [if_neg h1]
    by_cases h2 : n < 0x800
    · rw [if_pos h2]
      simp only [List.cons_append, List.nil_append, utf8DecodeOne]
      rw [if_neg (show ¬0xC0 + n / 64 < 0x80 by omega),
          if_neg (show ¬0xC0 + n / 64 < 0xC0 by omega),
          if_pos (show 0xC0 + n / 64 < 0xE0 by omega)]
      rw [if_pos (show 0x80 ≤ 0x80 + n % 64 ∧ 0x80 + n % 64 < 0xC0 by omega),
          if_pos (show 0x80 ≤ (0xC0 + n / 64 - 0xC0) * 64 + (0x80 + n % 64 - 0x80) by omega)]
      simp only [Option.some.injEq, Prod.mk.injEq]
      exact ⟨by omega, trivial⟩
    · rw [if_neg h2]
      by_cases h3 : n < 0x10000
      · rw [if_pos h3]
        simp only [List.cons_append, List.nil_append, utf8DecodeOne]
        rw [if_neg (show ¬0xE0 + n / 4096 < 0x80 by omega),
            if_neg (show ¬0xE0 + n / 4096 < 0xC0 by omega),
            if_neg (show ¬0xE0 + n / 4096 < 0xE0 by omega),
            if_pos (show 0xE0 + n / 4096 < 0xF0 by omega)]
        rw [if_pos (show (0x80 ≤ 0x80 + n / 64 % 64 ∧ 0x80 + n / 64 % 64 < 0xC0) ∧
              0x80 ≤ 0x80 + n % 64 ∧ 0x80 + n % 64 < 0xC0 by omega),
            if_pos (show 0x800 ≤ (0xE0 + n / 4096 - 0xE0) * 4096 +
                (0x80 + n / 64 % 64 - 0x80) * 64 + (0x80 + n % 64 - 0x80) ∧
                ((0xE0 + n / 4096 - 0xE0) * 4096 + (0x80 + n / 64 % 64 - 0x80) * 64 +
                  (0x80 + n % 64 - 0x80) < 0xD800 ∨
                 0xDFFF < (0xE0 + n / 4096 - 0xE0) * 4096 + (0x80 + n / 64 % 64 - 0x80) * 64 +
                  (0x80 + n % 64 - 0x80)) by omega)]
        simp only [Option.some.injEq, Prod.mk.injEq]
        exact ⟨by omega, trivial⟩
      · rw [if_neg h3]
        simp only [List.cons_append, List.nil_append, utf8DecodeOne]
        rw [if_neg (show ¬0xF0 + n / 0x40000 < 0x80 by omega),
            if_neg (show ¬0xF0 + n / 0x40000 < 0xC0 by omega),
            if_neg (show ¬0xF0 + n / 0x40000 < 0xE0 by omega),
            if_neg (show ¬0xF0 + n / 0x40000 < 0xF0 by omega),
            if_pos (show 0xF0 + n / 0x40000 < 0xF8 by omega)]
        rw [if_pos (show (0x80 ≤ 0x80 + n / 4096 % 64 ∧ 0x80 + n / 4096 % 64 < 0xC0) ∧
              (0x80 ≤ 0x80 + n / 64 % 64 ∧ 0x80 + n / 64 % 64 < 0xC0) ∧
              0x80 ≤ 0x80 + n % 64 ∧ 0x80 + n % 64 < 0xC0 by omega),
            if_pos (show 0x10000 ≤ (0xF0 + n / 0x40000 - 0xF0) * 0x40000 +
                (0x80 + n / 4096 % 64 - 0x80) * 4096 + (0x80 + n / 64 % 64 - 0x80) * 64 +
                (0x80 + n % 64 - 0x80) ∧
                (0xF0 + n / 0x40000 - 0xF0) * 0x40000 + (0x80 + n / 4096 % 64 - 0x80) * 4096 +
                (0x80 + n / 64 % 64 - 0x80) * 64 + (0x80 + n % 64 - 0x80) < 0x110000 by omega)]
        simp only [Option.some.injEq, Prod.mk.injEq]
        exact ⟨by omega, trivial⟩

theorem utf8Encode_length (cs : List Char) : cs.length ≤ (utf8Encode cs).length := by
  induction cs with
  | nil => simp [utf8Encode]
  | cons c cs ih =>
    have hpos : 0 < (utf8EncodeChar c.toNat).length :=
      List.length_pos.mpr (utf8EncodeChar_ne_nil c.toNat)
    simp only [utf8Encode, List.length_append, List.length_cons]
    omega

theorem utf8DecodeLoop_encode (cs : List Char) :
    ∀ fuel, cs.length ≤ fuel → utf8DecodeLoop fuel (utf8Encode cs) = some cs := by
  induction cs with
  | nil =>
    intro fuel _
    cases fuel <;> rfl
  | cons c cs ih =>
    intro fuel hf
    match fuel with
    | 0 => simp at hf
    | fuel + 1 =>
      obtain ⟨b, bs, hb⟩ : ∃ b bs, utf8EncodeChar c.toNat = b :: bs := by
        rcases he : utf8EncodeChar c.toNat with _ | ⟨b, bs⟩
        · exact absurd he (utf8EncodeChar_ne_nil c.toNat)
        · exact ⟨b, bs, rfl⟩
      have henc : utf8Encode (c :: cs) = b :: (bs ++ utf8Encode cs) := by
        simp [utf8Encode, hb]
      rw [henc]
      simp only [utf8DecodeLoop]
      have hdec : utf8DecodeOne (b :: (bs ++ utf8Encode cs)) = some (c.toNat, utf8Encode cs) := by
        rw [show b :: (bs ++ utf8Encode cs) = (b :: bs) ++ utf8Encode cs from rfl, ← hb]
        exact utf8DecodeOne_encodeChar c.toNat c.valid (utf8Encode cs)
      rw [hdec]
      dsimp only
      have hcs : cs.length ≤ fuel := by
        simp only [List.length_cons] at hf
        omega
      rw [dif_pos (show (c.toNat).isValidChar from c.valid), ih fuel hcs]
      simp [Char.ofNat_toNat]

theorem utf8Decode_encode (cs : List Char) : utf8Decode (utf8Encode cs) = some cs :=
  utf8DecodeLoop_encode cs (utf8Encode cs).length (utf8Encode_length cs)

theorem string_mk_data (s : String) : String.mk s.data = s := by
  obtain ⟨l⟩ := s
  rfl

theorem bytes_to_string_encode (s : String) :
    bytes_to_string (utf8Encode s.data) = .ok s := by
  simp [bytes_to_string, utf8Decode_encode, string_mk_data]

theorem from_dataframes_single (op : Opcode) (d : List Nat) :
    Message.from_dataframes [⟨true, (false, false, false), op, d⟩] =
      message_from_data op d := by
  simp [Message.from_dataframes, continuationFold]

/-- C7: converting a well-formed `Message` (close status codes are
`u16`) with payload at most `2^31` bytes into data frames and reassembling
yields the message again, and the default conversion emits exactly one
frame with `fin = true` carrying the message's opcode. -/
theorem c7_message_roundtrip (m : Message) (hWF : m.WF)
    (hsize : m.wireData.length ≤ 2 ^ 31) :
    Message.from_dataframes m.into_iter = .ok m ∧
    m.into_iter.length = 1 ∧
    ∀ f ∈ m.into_iter, f.finished = true ∧ f.opcode = m.wireOpcode := by
  refine ⟨?_, rfl, by simp [Message.into_iter]⟩
  rw [Message.into_iter, from_dataframes_single]
  cases m with
  | Text s =>
    simp [Message.wireOpcode, Message.wireData, message_from_data, bytes_to_string_encode]
  | Binary d => rfl
  | Close cd =>
    match cd with
    | none => rfl
    | some cd =>
      have hcode : cd.status_code < 2 ^ 16 := hWF
      simp only [Message.wireOpcode, Message.wireData, CloseData.into_bytes, writeU16be,
        List.cons_append, List.nil_append, message_from_data, bytes_to_string_encode]
      have : cd.status_code / 256 % 256 * 256 + cd.status_code % 256 = cd.status_code := by
        omega
      simp [this]
  | Ping d => rfl
  | Pong d => rfl

/-- Witness for `c7_message_roundtrip` at the message
`Close (some {status_code := 1000, reason := "bye"})`. -/
theorem c7_witness :
    Message.from_dataframes (Message.into_iter (.Close (some ⟨1000, "bye"⟩))) =
      .ok (.Close (some ⟨1000, "bye"⟩)) ∧
    (Message.into_iter (.Close (some ⟨1000, "bye"⟩))).length = 1 ∧
    ∀ f ∈ Message.into_iter (.Close (some ⟨1000, "bye"⟩)),
      f.finished = true ∧ f.opcode = Message.wireOpcode (.Close (some ⟨1000, "bye"⟩)) :=
  c7_message_roundtrip (.Close (some ⟨1000, "bye"⟩)) (by decide) (by decide)

/-- C4 (amended): while a data message is being reassembled (fragment
buffer non-empty), a control frame read next is returned alone with the
buffer kept intact; in the spec's scenario — with the first fragment sent
as Binary (`02 03 AA BB CC`, since a Text first fragment could not yield a
Binary message), then Ping `89 04 70 69 6E 67`, then `80 02 DD EE` — the
receiver yields the Ping with payload `70 69 6E 67` first and then the
Binary message `[AA, BB, CC, DD, EE]`. -/
theorem c4_control_during_fragmentation :
    (∀ (rcv : Receiver) (masked : Bool) (f : DataFrame) (r : List Nat),
      rcv.buffer ≠ [] →
      DataFrame.parse rcv.inner masked = .ok (f, r) →
      8 ≤ f.opcode.toU8 →
      rcv.recv_message_dataframes masked = .ok ([f], ⟨r, rcv.buffer⟩)) ∧
    (Receiver.recv_message_dataframes
        ⟨[0x02, 0x03, 0xAA, 0xBB, 0xCC, 0x89, 0x04, 0x70, 0x69, 0x6E, 0x67,
          0x80, 0x02, 0xDD, 0xEE], []⟩ false =
      .ok ([⟨true, (false, false, false), .Ping, [0x70, 0x69, 0x6E, 0x67]⟩],
        ⟨[0x80, 0x02, 0xDD, 0xEE],
         [⟨false, (false, false, false), .Binary, [0xAA, 0xBB, 0xCC]⟩]⟩)) ∧
    (Message.from_dataframes [⟨true, (false, false, false), .Ping, [0x70, 0x69, 0x6E, 0x67]⟩] =
      .ok (.Ping [0x70, 0x69, 0x6E, 0x67])) ∧
    (Receiver.recv_message_dataframes
        ⟨[0x80, 0x02, 0xDD, 0xEE],
         [⟨false, (false, false, false), .Binary, [0xAA, 0xBB, 0xCC]⟩]⟩ false =
      .ok ([⟨false, (false, false, false), .Binary, [0xAA, 0xBB, 0xCC]⟩,
            ⟨true, (false, false, false), .Continuation, [0xDD, 0xEE]⟩], ⟨[], []⟩)) ∧
    (Message.from_dataframes
        [⟨false, (false, false, false), .Binary, [0xAA, 0xBB, 0xCC]⟩,
         ⟨true, (false, false, false), .Continuation, [0xDD, 0xEE]⟩] =
      .ok (.Binary [0xAA, 0xBB, 0xCC, 0xDD, 0xEE])) := by
  refine ⟨?_, by decide, by decide, by decide, by decide⟩
  intro rcv masked f r hbuf hparse hctl
  match hin : rcv.inner with
  | [] =>
    rw [hin] at hparse
    exact absurd hparse (by simp [DataFrame.parse, read_header])
  | b :: t =>
    rw [hin] at hparse
    have hbe : ¬rcv.buffer.isEmpty = true := by
      cases hb : rcv.buffer
      · exact absurd hb hbuf
      · simp [hb]
    unfold Receiver.recv_message_dataframes
    rw [if_neg hbe, hin]
    rw [show (b :: t).length = t.length + 1 from rfl]
    simp only [recvLoop]
    rw [hparse]
    dsimp only
    rw [if_neg (show ¬f.opcode.toU8 = 0 by omega),
        if_pos (show 8 ≤ f.opcode.toU8 ∧ f.opcode.toU8 ≤ 15 from
          ⟨hctl, opcode_toU8_le f.opcode⟩)]

/-- C4 (counterexample to the claim's literal example): with the
spec's literal first frame `01 03 AA BB CC` the first fragment is a Text
frame (opcode 1), so reassembly attempts a Text message over the bytes
`AA BB CC DD EE`, which are not UTF-8; the receiver yields the Ping first,
but the second message is a `Utf8Error`, not `Binary [AA,BB,CC,DD,EE]`. -/
theorem c4_counterexample :
    (Receiver.recv_message_dataframes
        ⟨[0x01, 0x03, 0xAA, 0xBB, 0xCC, 0x89, 0x04, 0x70, 0x69, 0x6E, 0x67,
          0x80, 0x02, 0xDD, 0xEE], []⟩ false =
      .ok ([⟨true, (false, false, false), .Ping, [0x70, 0x69, 0x6E, 0x67]⟩],
        ⟨[0x80, 0x02, 0xDD, 0xEE],
         [⟨false, (false, false, false), .Text, [0xAA, 0xBB, 0xCC]⟩]⟩)) ∧
    (Receiver.recv_message_dataframes
        ⟨[0x80, 0x02, 0xDD, 0xEE],
         [⟨false, (false, false, false), .Text, [0xAA, 0xBB, 0xCC]⟩]⟩ false =
      .ok ([⟨false, (false, false, false), .Text, [0xAA, 0xBB, 0xCC]⟩,
            ⟨true, (false, false, false), .Continuation, [0xDD, 0xEE]⟩], ⟨[], []⟩)) ∧
    Message.from_dataframes
        [⟨false, (false, false, false), .Text, [0xAA, 0xBB, 0xCC]⟩,
         ⟨true, (false, false, false), .Continuation, [0xDD, 0xEE]⟩] =
      .error .Utf8Error := by
  decide

/-- Witness for `c4_control_during_fragmentation`: the general part applied
mid-reassembly, with a Binary fragment buffered and a Ping next on the
wire. -/
theorem c4_witness :
    Receiver.recv_message_dataframes
        ⟨[0x89, 0x04, 0x70, 0x69, 0x6E, 0x67],
         [⟨false, (false, false, false), .Binary, [0xAA, 0xBB, 0xCC]⟩]⟩ false =
      .ok ([⟨true, (false, false, false), .Ping, [0x70, 0x69, 0x6E, 0x67]⟩],
        ⟨[], [⟨false, (false, false, false), .Binary, [0xAA, 0xBB, 0xCC]⟩]⟩) :=
  c4_control_during_fragmentation.1
    ⟨[0x89, 0x04, 0x70, 0x69, 0x6E, 0x67],
     [⟨false, (false, false, false), .Binary, [0xAA, 0xBB, 0xCC]⟩]⟩ false
    ⟨true, (false, false, false), .Ping, [0x70, 0x69, 0x6E, 0x67]⟩ []
    (by decide) (by decide) (by decide)

theorem bufferWF_push (buffer : List DataFrame) (next : DataFrame)
    (hWF : bufferWF buffer) (hne : buffer ≠ [])
    (hcont : next.opcode = .Continuation) : bufferWF (buffer ++ [next]) := by
  match buffer, hne with
  | f :: rest, _ =>
    obtain ⟨hf, hrest⟩ := hWF
    refine ⟨hf, ?_⟩
    intro g hg
    rcases List.mem_append.mp hg with hg | hg
    · exact hrest g hg
    · rw [List.mem_singleton.mp hg]
      exact hcont

theorem recvLoop_shape (masked : Bool) :
    ∀ (fuel : Nat) (input : List Nat) (buffer v : List DataFrame) (st : Receiver),
      bufferWF buffer → buffer ≠ [] →
      recvLoop masked fuel input buffer = .ok (v, st) →
      msgFramesWF v ∧ bufferWF st.buffer := by
  intro fuel
  induction fuel with
  | zero =>
    intro input buffer v st _ _ h
    cases h
  | succ fuel ih =>
    intro input buffer v st hWF hne h
    simp only [recvLoop] at h
    cases hp : DataFrame.parse input masked with
    | error e =>
      rw [hp] at h
      cases h
    | ok pr =>
      obtain ⟨next, r⟩ := pr
      rw [hp] at h
      dsimp only at h
      by_cases h0 : next.opcode.toU8 = 0
      · rw [if_pos h0] at h
        have hcont : next.opcode = .Continuation := by
          cases hop : next.opcode
          · rfl
          all_goals (rw [hop] at h0; exact absurd h0 (by decide))
        by_cases hfin : next.finished = true
        · rw [if_pos hfin] at h
          simp only [Except.ok.injEq, Prod.mk.injEq] at h
          obtain ⟨hv, hst⟩ := h
          subst hv
          subst hst
          constructor
          · match buffer, hne with
            | f :: rest, _ =>
              obtain ⟨hf, hrest⟩ := hWF
              refine Or.inr ⟨hf, ?_⟩
              intro g hg
              rcases List.mem_append.mp hg with hg | hg
              · exact hrest g hg
              · rw [List.mem_singleton.mp hg]
                exact hcont
          · trivial
        · rw [if_neg hfin] at h
          exact ih r (buffer ++ [next]) v st
            (bufferWF_push buffer next hWF hne hcont) (by simp) h
      · rw [if_neg h0] at h
        by_cases hc : 8 ≤ next.opcode.toU8 ∧ next.opcode.toU8 ≤ 15
        · rw [if_pos hc] at h
          simp only [Except.ok.injEq, Prod.mk.injEq] at h
          obtain ⟨hv, hst⟩ := h
          subst hv
          subst hst
          exact ⟨Or.inl rfl, hWF⟩
        · rw [if_neg hc] at h
          cases h

theorem continuationFold_no_nodf (l : List DataFrame) :
    ∀ acc, continuationFold l acc ≠ .error (.ProtocolError "No dataframes provided") := by
  induction l with
  | nil =>
    intro acc h
    cases h
  | cons f rest ih =>
    intro acc
    simp only [continuationFold]
    by_cases h1 : f.opcode ≠ .Continuation
    · rw [if_pos h1]
      decide
    · rw [if_neg h1]
      by_cases h2 : f.reserved ≠ (false, false, false)
      · rw [if_pos h2]
        decide
      · rw [if_neg h2]
        exact ih (acc ++ f.data)

theorem message_from_data_no_nodf (op : Opcode) (d : List Nat) :
    message_from_data op d ≠ .error (.ProtocolError "No dataframes provided") := by
  cases op with
  | Text =>
    simp only [message_from_data]
    cases hu : utf8Decode d <;> simp [bytes_to_string, hu]
  | Binary => simp [message_from_data]
  | Ping => simp [message_from_data]
  | Pong => simp [message_from_data]
  | Close =>
    simp only [message_from_data]
    match d with
    | [] => simp
    | [x] => simp
    | c0 :: c1 :: rest =>
      cases hu : utf8Decode rest <;> simp [bytes_to_string, hu]
  | Continuation => simp [message_from_data]
  | NonControl1 => simp [message_from_data]
  | NonControl2 => simp [message_from_data]
  | NonControl3 => simp [message_from_data]
  | NonControl4 => simp [message_from_data]
  | NonControl5 => simp [message_from_data]
  | Control1 => simp [message_from_data]
  | Control2 => simp [message_from_data]
  | Control3 => simp [message_from_data]
  | Control4 => simp [message_from_data]
  | Control5 => simp [message_from_data]

/-- C9: starting from a well-formed fragment buffer, whenever
`recv_message_dataframes` returns `Ok(v)` the vector `v` is non-empty and
is either a single frame or a non-continuation first frame followed only
by continuation frames, the buffer invariant is preserved, and
consequently the `"No dataframes provided"` branch of `from_dataframes`
cannot fire on `v`. -/
theorem c9_recv_message_shape (rcv : Receiver) (masked : Bool) (v : List DataFrame)
    (st : Receiver) (hWF : bufferWF rcv.buffer)
    (h : rcv.recv_message_dataframes masked = .ok (v, st)) :
    msgFramesWF v ∧ bufferWF st.buffer ∧
      Message.from_dataframes v ≠ .error (.ProtocolError "No dataframes provided") := by
  have main : msgFramesWF v ∧ bufferWF st.buffer := by
    unfold Receiver.recv_message_dataframes at h
    by_cases hbe : rcv.buffer.isEmpty = true
    · rw [if_pos hbe] at h
      cases hp : DataFrame.parse rcv.inner masked with
      | error e =>
        rw [hp] at h
        cases h
      | ok pr =>
        obtain ⟨first, r⟩ := pr
        rw [hp] at h
        dsimp only at h
        by_cases hcont : first.opcode = .Continuation
        · rw [if_pos hcont] at h
          cases h
        · rw [if_neg hcont] at h
          by_cases hfin : first.finished = true
          · rw [if_pos hfin] at h
            simp only [Except.ok.injEq, Prod.mk.injEq] at h
            obtain ⟨hv, hst⟩ := h
            subst hv
            subst hst
            exact ⟨Or.inl rfl, trivial⟩
          · rw [if_neg hfin] at h
            exact recvLoop_shape masked r.length r [first] v st
              ⟨hcont, by simp⟩ (by simp) h
    · rw [if_neg hbe] at h
      have hne : rcv.buffer ≠ [] := fun hnil => hbe (by rw [hnil]; rfl)
      exact recvLoop_shape masked rcv.inner.length rcv.inner rcv.buffer v st hWF hne h
  refine ⟨main.1, main.2, ?_⟩
  match v, main.1 with
  | f :: rest, _ =>
    simp only [Message.from_dataframes]
    by_cases hres : f.reserved ≠ (false, false, false)
    · rw [if_pos hres]
      decide
    · rw [if_neg hres]
      cases hfold : continuationFold rest f.data with
      | error e =>
        intro hbad
        injection hbad with he
        rw [he] at hfold
        exact continuationFold_no_nodf rest f.data hfold
      | ok data =>
        exact message_from_data_no_nodf f.opcode data

/-- Witness for `c9_recv_message_shape`: a single unfragmented Text frame
received from the empty-buffer state. -/
theorem c9_witness :
    msgFramesWF [⟨true, (false, false, false), .Text, []⟩] ∧
    bufferWF ([] : List DataFrame) ∧
    Message.from_dataframes [⟨true, (false, false, false), .Text, []⟩] ≠
      .error (.ProtocolError "No dataframes provided") :=
  c9_recv_message_shape ⟨[0x81, 0x00], []⟩ false
    [⟨true, (false, false, false), .Text, []⟩] ⟨[], []⟩ trivial (by decide)

/-- Sanity: the embedding reproduces the repo's own header unit tests
(src/ws/util/header.rs `test_read_header_simple` /
`test_write_header_simple` / `test_read_header_complex` /
`test_write_header_complex`). -/
theorem header_codec_matches_repo_tests :
    read_header [0x81, 0x2B] = .ok (⟨⟨true, false, false, false⟩, 1, none, 43⟩, []) ∧
    write_header ⟨⟨true, false, false, false⟩, 1, none, 43⟩ = .ok [0x81, 0x2B] ∧
    read_header [0x42, 0xFE, 0x02, 0x00, 0x02, 0x04, 0x08, 0x10] =
      .ok (⟨⟨false, true, false, false⟩, 2, some (2, 4, 8, 16), 512⟩, []) ∧
    write_header ⟨⟨false, true, false, false⟩, 2, some (2, 4, 8, 16), 512⟩ =
      .ok [0x42, 0xFE, 0x02, 0x00, 0x02, 0x04, 0x08, 0x10] := by
  decide

/-- Sanity: the §8 scenarios 1 and 3 — the echoed `Text("Hello")` frame
parses back, and the fragmented binary `02 03 01 02 03` / `80 02 04 05`
reassembles to `Binary [1,2,3,4,5]`. -/
theorem scenario_frames_parse :
    DataFrame.parse [0x81, 0x05, 0x48, 0x65, 0x6C, 0x6C, 0x6F] false =
      .ok (⟨true, (false, false, false), .Text, [0x48, 0x65, 0x6C, 0x6C, 0x6F]⟩, []) ∧
    Receiver.recv_message_dataframes ⟨[0x02, 0x03, 1, 2, 3, 0x80, 0x02, 4, 5], []⟩ false =
      .ok ([⟨false, (false, false, false), .Binary, [1, 2, 3]⟩,
            ⟨true, (false, false, false), .Continuation, [4, 5]⟩], ⟨[], []⟩) ∧
    Message.from_dataframes [⟨false, (false, false, false), .Binary, [1, 2, 3]⟩,
        ⟨true, (false, false, false), .Continuation, [4, 5]⟩] =
      .ok (.Binary [1, 2, 3, 4, 5]) := by
  decide

/-- Sanity: the §8 scenario 5 bytes `C0 C1` are rejected as UTF-8, and the
SHA-1 model reproduces the FIPS 180-4 `"abc"` test vector. -/
theorem utf8_and_sha1_vectors :
    bytes_to_string [0xC0, 0xC1] = .error .Utf8Error ∧
    sha1 [0x61, 0x62, 0x63] =
      [0xA9, 0x99, 0x3E, 0x36, 0x47, 0x06, 0x81, 0x6A, 0xBA, 0x3E,
       0x25, 0x71, 0x78, 0x50, 0xC2, 0x6C, 0x9C, 0xD0, 0xD8, 0x9D] := by
  decide
